import Mathlib

set_option maxHeartbeats 1000000

/-!
Shallow embedding of the data-preprocessing and metric code of the
Project-CS230 repository (src/data_preprocessing.py and
src/fc_nn_tox21-multi-task.py).

External library calls (RDKit parsing and fingerprinting, image rendering,
the Mersenne-Twister random generator) are modelled as function parameters;
everything the repository's own code does (the conversion loop, the filter,
the error propagation, the shuffle-zip-unzip dance, the output-path
computation, the per-class accuracy loop) is translated directly from the
source.
-/

/-- Python exceptions that the modelled code can raise. -/
inductive PyErr : Type where
  | nameError (msg : String)
  | valueError (msg : String)
  | indexError (msg : String)
  | assertionError
  deriving DecidableEq, Repr

/-- A successfully parsed molecule, as the conversion loop observes it:
its property dictionary (GetPropsAsDict, modelled as an association list
with unique keys) and its canonical SMILES string (MolToSmiles). A record
of the SDF file that fails to parse is modelled as `none` (RDKit's
SDMolSupplier yields None, and None.GetPropsAsDict() raises the
AttributeError that line 71 of data_preprocessing.py catches). -/
structure Mol (V : Type) where
  props : List (String × V)
  smiles : String
  deriving DecidableEq, Repr

/-- Lookup in the property dictionary (first match wins; dict keys are
unique anyway). -/
def alookup {V : Type} : List (String × V) → String → Option V
  | [], _ => none
  | (k, v) :: rest, key => if k = key then some v else alookup rest key

/-- The filter of line 52: set(properties) <= set(properties_dict.keys()). -/
def hasAllProps {V : Type} (properties : List String) (pd : List (String × V)) : Bool :=
  properties.all (fun p => (alookup pd p).isSome)

/-- The label row of line 69: [properties_dict[key] for key in properties].
The surrounding filter guarantees every lookup succeeds, so the default is
never used. -/
def labelsOf {V : Type} [Inhabited V] (properties : List String) (pd : List (String × V)) :
    List V :=
  properties.map (fun p => (alookup pd p).getD default)

/-- The message of the NameError raised on lines 63-66. -/
def nameErrMsg : String :=
  "The structure type specified does not exist. Valid values: [\"fingerprints\", \"2Dimg\"]"

/-- The struct_type dispatch of lines 56-66. `encFp` models
convert_smiles_into_fingerprints, `encImg` models
img_to_array(convert_smiles_into_2d_structure_images(smile)). -/
def encodeStruct {S : Type} (structType : String) (encFp encImg : String → S)
    (smile : String) : Except PyErr S :=
  if structType = "fingerprints" then .ok (encFp smile)
  else if structType = "2Dimg" then .ok (encImg smile)
  else .error (.nameError nameErrMsg)

/-- One iteration of the loop body (lines 46-72): a None record raises
AttributeError at GetPropsAsDict, which is caught and logged (`.ok none`);
a parsed record is kept iff it carries all requested properties; an
unknown struct_type raises NameError, which is NOT an AttributeError and
so escapes the try block. -/
def processRecord {S V : Type} [Inhabited V] (structType : String) (encFp encImg : String → S)
    (properties : List String) : Option (Mol V) → Except PyErr (Option (S × List V))
  | none => .ok none
  | some mol =>
    if hasAllProps properties mol.props then
      match encodeStruct structType encFp encImg mol.smiles with
      | .error e => .error e
      | .ok s => .ok (some (s, labelsOf properties mol.props))
    else .ok none

/-- The whole loop of lines 45-76: X and Y accumulated in file order, one
append to each per included record; the first uncaught exception aborts. -/
def buildXY {S V : Type} [Inhabited V] (structType : String) (encFp encImg : String → S)
    (properties : List String) :
    List (Option (Mol V)) → Except PyErr (List S × List (List V))
  | [] => .ok ([], [])
  | r :: rs =>
    match processRecord structType encFp encImg properties r with
    | .error e => .error e
    | .ok none => buildXY structType encFp encImg properties rs
    | .ok (some (s, ys)) =>
      match buildXY structType encFp encImg properties rs with
      | .error e => .error e
      | .ok (X, Y) => .ok (s :: X, ys :: Y)

/-- The (structure, label) pair an individual record contributes, if any:
a parsed record passing the property filter contributes its encoded
structure and its label row, any other record contributes nothing. -/
def includedPair {S V : Type} [Inhabited V] (enc : String → S) (properties : List String) :
    Option (Mol V) → Option (S × List V)
  | none => none
  | some mol =>
    if hasAllProps properties mol.props then
      some (enc mol.smiles, labelsOf properties mol.props)
    else none

/-- The encoder a valid struct_type selects. -/
def chosenEnc {S : Type} (structType : String) (encFp encImg : String → S) : String → S :=
  if structType = "fingerprints" then encFp else encImg

/-- Whether the first list begins the second (elementwise equality). -/
def matchesAt : List Char → List Char → Bool
  | [], _ => true
  | _ :: _, [] => false
  | p :: ps, c :: cs => p == c && matchesAt ps cs

/-- Left-to-right, non-overlapping replacement of every occurrence of the
nonempty pattern p :: ps by rep, as Python's str.replace does. A positive
skip counter means that many characters of an already matched occurrence
remain to be consumed without being re-scanned. -/
def replaceAux (p : Char) (ps rep : List Char) : Nat → List Char → List Char
  | _, [] => []
  | skip + 1, _ :: rest => replaceAux p ps rep skip rest
  | 0, c :: rest =>
    if matchesAt (p :: ps) (c :: rest) then
      rep ++ replaceAux p ps rep ps.length rest
    else
      c :: replaceAux p ps rep 0 rest

/-- Python's str.replace(old, new) for a nonempty old (the repository only
ever calls it with the pattern ".sdf"; an empty pattern is modelled as the
identity). -/
def pyReplace (s pat rep : String) : String :=
  match pat.data with
  | [] => s
  | p :: ps => ⟨replaceAux p ps rep.data 0 s.data⟩

instance {ε α : Type} [DecidableEq ε] [DecidableEq α] : DecidableEq (Except ε α) := fun a b =>
  match a, b with
  | .error e, .error f =>
    if h : e = f then .isTrue (by rw [h]) else .isFalse (by intro hc; cases hc; exact h rfl)
  | .error _, .ok _ => .isFalse (by intro hc; cases hc)
  | .ok _, .error _ => .isFalse (by intro hc; cases hc)
  | .ok x, .ok y =>
    if h : x = y then .isTrue (by rw [h]) else .isFalse (by intro hc; cases hc; exact h rfl)

/-- Line 103: npz_file_path or sdf_file_path.replace(".sdf", "_%s.npz" %
struct_type). Python's `or` takes the right operand when the left is None
or the empty string (both falsy). -/
def npzPath (npzFilePath : Option String) (sdfFilePath structType : String) : String :=
  match npzFilePath with
  | some p => if p = "" then pyReplace sdfFilePath ".sdf" ("_" ++ structType ++ ".npz") else p
  | none => pyReplace sdfFilePath ".sdf" ("_" ++ structType ++ ".npz")

/-- The message of the ValueError that `X, Y = zip(*mols)` raises on an
empty mols (line 90). -/
def unpackErrMsg : String := "not enough values to unpack (expected 2, got 0)"

/-- Lines 90-106 applied to the already shuffled pair list: unzip (which
raises ValueError on an empty list), compute the output path and save.
The `.ok` value is (path written, x array, y array). -/
def finishRun {S V : Type} (shuffled : List (S × List V)) (npzFilePath : Option String)
    (sdfFilePath structType : String) : Except PyErr (String × List S × List (List V)) :=
  match shuffled with
  | [] => .error (.valueError unpackErrMsg)
  | _ => .ok (npzPath npzFilePath sdfFilePath structType,
              shuffled.map Prod.fst, shuffled.map Prod.snd)

/-- convert_sdf_to_npz (lines 19-106). `shuffle` models random.shuffle,
`records` the sequence the SDMolSupplier yields, in file order. The assert
of line 84 is modelled explicitly. -/
def convert_sdf_to_npz {S V : Type} [Inhabited V]
    (shuffle : List (S × List V) → List (S × List V)) (encFp encImg : String → S)
    (records : List (Option (Mol V))) (structType : String) (properties : List String)
    (npzFilePath : Option String) (sdfFilePath : String) :
    Except PyErr (String × List S × List (List V)) :=
  match buildXY structType encFp encImg properties records with
  | .error e => .error e
  | .ok (X, Y) =>
    if X.length = Y.length ∧ Y.length = (X.zip Y).length then
      finishRun (shuffle (X.zip Y)) npzFilePath sdfFilePath structType
    else .error .assertionError

/-- convert_smiles_into_fingerprints (lines 120-128):
list(RDKFingerprint(MolFromSmiles(smile))), with the three external RDKit
steps as parameters. -/
def convert_smiles_into_fingerprints {M FP : Type} (molFromSmiles : String → M)
    (rdkFingerprint : M → FP) (fpBits : FP → List Nat) (smile : String) : List Nat :=
  fpBits (rdkFingerprint (molFromSmiles smile))

/-- convert_sdf_to_npz again, with the random generator state threaded
explicitly: random.shuffle both uses and advances the module-level
Mersenne-Twister state, and is reached exactly when the loop and the
assert succeed. -/
def convertR {S V R : Type} [Inhabited V]
    (shuffleR : R → List (S × List V) → List (S × List V) × R) (rng : R)
    (encFp encImg : String → S) (records : List (Option (Mol V))) (structType : String)
    (properties : List String) (npzFilePath : Option String) (sdfFilePath : String) :
    Except PyErr (String × List S × List (List V)) × R :=
  match buildXY structType encFp encImg properties records with
  | .error e => (.error e, rng)
  | .ok (X, Y) =>
    if X.length = Y.length ∧ Y.length = (X.zip Y).length then
      let sr := shuffleR rng (X.zip Y)
      (finishRun sr.1 npzFilePath sdfFilePath structType, sr.2)
    else (.error .assertionError, rng)

/-- The arguments of one convert_sdf_to_npz call in main (lines 131-145). -/
structure CallArgs (V : Type) where
  records : List (Option (Mol V))
  structType : String
  properties : List String
  npzFilePath : Option String
  sdfFilePath : String

/-- Runs a sequence of convert_sdf_to_npz calls, threading the random
generator state through them in order. -/
def scriptRunAux {S V R : Type} [Inhabited V]
    (shuffleR : R → List (S × List V) → List (S × List V) × R)
    (encFp encImg : String → S) :
    R → List (CallArgs V) → List (Except PyErr (String × List S × List (List V)))
  | _, [] => []
  | rng, c :: cs =>
    let r := convertR shuffleR rng encFp encImg c.records c.structType c.properties
      c.npzFilePath c.sdfFilePath
    r.1 :: scriptRunAux shuffleR encFp encImg r.2 cs

/-- A run of the data_preprocessing script: module import seeds the random
generator with the constant 1 (line 13), then main performs its
convert_sdf_to_npz calls in order. -/
def data_preprocessing_script {S V R : Type} [Inhabited V] (seedFn : Nat → R)
    (shuffleR : R → List (S × List V) → List (S × List V) × R)
    (encFp encImg : String → S) (calls : List (CallArgs V)) :
    List (Except PyErr (String × List S × List (List V))) :=
  scriptRunAux shuffleR encFp encImg (seedFn 1) calls

/-- The thresholding of line 27 of fc_nn_tox21-multi-task.py:
(y_pred > 0.5) * 1.0, elementwise on one entry. -/
def maskVal (v : ℚ) : ℚ := if 1 / 2 < v then 1 else 0

/-- The thresholding applied to the whole prediction matrix. -/
def maskPred (y : List (List ℚ)) : List (List ℚ) := y.map (fun row => row.map maskVal)

/-- Matrix indexing m[j][i] with numpy-style row/column access, defaulting
to 0 outside the matrix (the theorems below always supply shape
hypotheses that keep indices in range). -/
def rowGet (m : List (List ℚ)) (j i : Nat) : ℚ := (m.getD j []).getD i 0

/-- The hard-coded 3-element classes array of line 22 of
fc_nn_tox21-multi-task.py. -/
def tox21Classes : List String := ["NR-AR", "NR-ER-LBD", "SR-ATAD5"]

/-- The message of the IndexError that indexing the 3-element classes
array out of bounds raises. -/
def indexErrMsg (i : Nat) : String :=
  "index " ++ toString i ++ " is out of bounds for axis 0 with size 3"

/-- The body of the per-class accuracy loop (lines 32-38) over the listed
column indices: for column i, count the rows j with
y_pred[j][i] == y_test[j][i], divide by y_pred.shape[0], then print
classes[i] with the accuracy; classes[i] raises IndexError when i is
outside the 3-element classes array, aborting the loop after the earlier
lines have been printed. The result is the printed (class name, accuracy)
pairs in order, together with the exception that ended the loop, if any. -/
def reportAccuracies (yPred yTest : List (List ℚ)) :
    List Nat → List (String × ℚ) × Option PyErr
  | [] => ([], none)
  | i :: is =>
    let accuracy :=
      (((List.range yPred.length).filter
          (fun j => decide (rowGet yPred j i = rowGet yTest j i))).length : ℚ)
        / (yPred.length : ℚ)
    match tox21Classes[i]? with
    | none => ([], some (.indexError (indexErrMsg i)))
    | some name =>
      let r := reportAccuracies yPred yTest is
      ((name, accuracy) :: r.1, r.2)

/-- The per-class accuracy part of each_metric (lines 20-38): threshold
the predictions, then run the accuracy loop over i in
range(y_pred.shape[1]). -/
def each_metric_report (predict : List (List ℚ) → List (List ℚ))
    (inputData yTest : List (List ℚ)) : List (String × ℚ) × Option PyErr :=
  let yPred := maskPred (predict inputData)
  let nCols := (yPred.headD []).length
  reportAccuracies yPred yTest (List.range nCols)

/-- Modelled from the spec sentence of the claim: the standard per-class
accuracy for class i, the fraction of test rows whose thresholded
prediction (1.0 exactly when the raw prediction is strictly greater than
0.5, else 0.0) equals the test label in column i. -/
def specPerClassAccuracy (yPredRaw yTest : List (List ℚ)) (i : Nat) : ℚ :=
  (((yPredRaw.zip yTest).filter
      (fun r => decide ((if 1 / 2 < r.1.getD i 0 then (1 : ℚ) else 0) = r.2.getD i 0))).length : ℚ)
    / (yTest.length : ℚ)

theorem zipMapFstSnd {A B : Type} : ∀ l : List (A × B), (l.map Prod.fst).zip (l.map Prod.snd) = l
  | [] => rfl
  | (a, b) :: t => by simp [zipMapFstSnd t]

theorem buildXY_eq_filterMap {S V : Type} [Inhabited V] (structType : String)
    (encFp encImg : String → S) (properties : List String)
    (h : structType = "fingerprints" ∨ structType = "2Dimg") :
    ∀ records : List (Option (Mol V)),
      buildXY structType encFp encImg properties records =
        .ok ((records.filterMap
                (includedPair (chosenEnc structType encFp encImg) properties)).map Prod.fst,
             (records.filterMap
                (includedPair (chosenEnc structType encFp encImg) properties)).map Prod.snd)
  | [] => rfl
  | r :: rs => by
    have ih := buildXY_eq_filterMap structType encFp encImg properties h rs
    cases r with
    | none => simpa [buildXY, processRecord, includedPair] using ih
    | some mol =>
      by_cases hp : hasAllProps properties mol.props
      · have henc : encodeStruct structType encFp encImg mol.smiles =
            .ok (chosenEnc structType encFp encImg mol.smiles) := by
          rcases h with h | h <;> subst h <;> simp [encodeStruct, chosenEnc]
        simp [buildXY, processRecord, hp, henc, includedPair, ih]
      · simp [buildXY, processRecord, hp, includedPair, ih]

theorem buildXY_error_of_included {S V : Type} [Inhabited V] (structType : String)
    (encFp encImg : String → S) (properties : List String)
    (h1 : structType ≠ "fingerprints") (h2 : structType ≠ "2Dimg") :
    ∀ (records : List (Option (Mol V))) (mol : Mol V), some mol ∈ records →
      hasAllProps properties mol.props = true →
      buildXY structType encFp encImg properties records = .error (.nameError nameErrMsg)
  | r :: rs, mol, hmem, hp => by
    cases r with
    | none =>
      have hm : some mol ∈ rs := by simpa using hmem
      simpa [buildXY, processRecord] using
        buildXY_error_of_included structType encFp encImg properties h1 h2 rs mol hm hp
    | some m =>
      by_cases hm : hasAllProps properties m.props
      · simp [buildXY, processRecord, hm, encodeStruct, h1, h2]
      · have hne : some mol ∈ rs := by
          rcases List.mem_cons.mp hmem with heq | hmm
          · exact absurd hp (by simp [Option.some.inj heq] at hm ⊢; simpa using hm)
          · exact hmm
        simpa [buildXY, processRecord, hm] using
          buildXY_error_of_included structType encFp encImg properties h1 h2 rs mol hne hp

theorem buildXY_ok_lengths {S V : Type} [Inhabited V] (structType : String)
    (encFp encImg : String → S) (properties : List String)
    (records : List (Option (Mol V))) (X : List S) (Y : List (List V))
    (h : buildXY structType encFp encImg properties records = .ok (X, Y)) :
    X.length = Y.length := by
  induction records generalizing X Y with
  | nil =>
    simp [buildXY] at h
    obtain ⟨rfl, rfl⟩ := h.symm
    rfl
  | cons r rs ih =>
    rw [buildXY] at h
    cases hpr : processRecord structType encFp encImg properties r with
    | error e => rw [hpr] at h; simp at h
    | ok o =>
      rw [hpr] at h
      cases o with
      | none => exact ih X Y h
      | some p =>
        obtain ⟨s, ys⟩ := p
        cases hb : buildXY structType encFp encImg properties rs with
        | error e => rw [hb] at h; simp at h
        | ok XY =>
          obtain ⟨X0, Y0⟩ := XY
          rw [hb] at h
          simp only [Except.ok.injEq, Prod.mk.injEq] at h
          obtain ⟨h1, h2⟩ := h
          subst h1; subst h2
          simpa using ih X0 Y0 hb

theorem buildXY_skip_none {S V : Type} [Inhabited V] (structType : String)
    (encFp encImg : String → S) (properties : List String) :
    ∀ l1 l2 : List (Option (Mol V)),
      buildXY structType encFp encImg properties (l1 ++ none :: l2) =
        buildXY structType encFp encImg properties (l1 ++ l2)
  | [], l2 => by simp [buildXY, processRecord]
  | r :: rs, l2 => by
    have ih := buildXY_skip_none structType encFp encImg properties rs l2
    cases r with
    | none => simpa [buildXY, processRecord] using ih
    | some m => simp [buildXY, processRecord, ih]

theorem convert_ok_inversion {S V : Type} [Inhabited V]
    (shuffle : List (S × List V) → List (S × List V)) (encFp encImg : String → S)
    (records : List (Option (Mol V))) (structType : String) (properties : List String)
    (npzFilePath : Option String) (sdfFilePath : String)
    (path : String) (X' : List S) (Y' : List (List V))
    (hrun : convert_sdf_to_npz shuffle encFp encImg records structType properties
      npzFilePath sdfFilePath = .ok (path, X', Y')) :
    ∃ X Y, buildXY structType encFp encImg properties records = .ok (X, Y) ∧
      shuffle (X.zip Y) ≠ [] ∧
      path = npzPath npzFilePath sdfFilePath structType ∧
      X' = (shuffle (X.zip Y)).map Prod.fst ∧ Y' = (shuffle (X.zip Y)).map Prod.snd := by
  rw [convert_sdf_to_npz] at hrun
  cases hb : buildXY structType encFp encImg properties records with
  | error e => rw [hb] at hrun; simp at hrun
  | ok XY =>
    obtain ⟨X, Y⟩ := XY
    rw [hb] at hrun
    dsimp only at hrun
    have hcond : X.length = Y.length ∧ Y.length = (X.zip Y).length := by
      have := buildXY_ok_lengths structType encFp encImg properties records X Y hb
      simp [List.length_zip, this]
    rw [if_pos hcond] at hrun
    cases hsh : shuffle (X.zip Y) with
    | nil => rw [hsh] at hrun; simp [finishRun] at hrun
    | cons a t =>
      rw [hsh] at hrun
      simp only [finishRun, Except.ok.injEq, Prod.mk.injEq] at hrun
      obtain ⟨hpath, hX, hY⟩ := hrun
      exact ⟨X, Y, rfl, by simp [hsh], hpath.symm, by rw [hsh, ← hX], by rw [hsh, ← hY]⟩

theorem maskVal_zero : maskVal 0 = 0 := by norm_num [maskVal]

theorem getD_map_maskVal (raw : List (List ℚ)) (j : Nat) :
    (List.map (fun row => List.map maskVal row) raw).getD j [] =
      (raw.getD j []).map maskVal := by
  rw [List.getD_eq_getElem?_getD, List.getElem?_map, List.getD_eq_getElem?_getD]
  cases raw[j]? <;> simp

theorem map_getD_maskVal (row : List ℚ) (i : Nat) :
    (row.map maskVal).getD i 0 = maskVal (row.getD i 0) := by
  rw [List.getD_eq_getElem?_getD, List.getElem?_map, List.getD_eq_getElem?_getD]
  cases row[i]? <;> simp [maskVal_zero]

theorem rowGet_maskPred (raw : List (List ℚ)) (j i : Nat) :
    rowGet (maskPred raw) j i = maskVal (rowGet raw j i) := by
  unfold rowGet maskPred
  rw [getD_map_maskVal, map_getD_maskVal]

theorem countRangeEqCountZip {A B : Type} (P : A → B → Bool) (dA : A) (dB : B) :
    ∀ (l1 : List A) (l2 : List B), l1.length = l2.length →
      ((List.range l1.length).filter (fun j => P (l1.getD j dA) (l2.getD j dB))).length =
        ((l1.zip l2).filter (fun r => P r.1 r.2)).length
  | [], l2, h => by simp
  | a :: t1, [], h => by simp at h
  | a :: t1, b :: t2, h => by
    have h' : t1.length = t2.length := by simpa using h
    have ih := countRangeEqCountZip P dA dB t1 t2 h'
    rw [List.length_cons, List.range_succ_eq_map]
    rw [List.filter_cons, List.filter_map]
    have hpred : ((fun j => P ((a :: t1).getD j dA) ((b :: t2).getD j dB)) ∘ Nat.succ) =
        fun j => P (t1.getD j dA) (t2.getD j dB) := by
      funext j
      simp [List.getD_cons_succ]
    rw [hpred]
    rw [List.zip_cons_cons, List.filter_cons]
    by_cases hab : P a b
    · simp only [List.getD_cons_zero, hab, if_true, List.length_cons, List.length_map]
      simp only [List.getD_eq_getElem?_getD] at ih ⊢
      omega
    · simp only [List.getD_cons_zero, hab, List.length_map, Bool.false_eq_true, if_false]
      simp only [List.getD_eq_getElem?_getD] at ih ⊢
      omega

/-- C1: for every record of the input file, convert_sdf_to_npz includes a
(structure, label) pair exactly when the record parses to a molecule and
the requested property names are all among the record's property keys, and
the label row lists the record's values of the requested properties in the
order of the properties argument: the loop's (X, Y) accumulators are the
unzipped filterMap of includedPair over the records in file order. -/
theorem C1_filter_and_label_order {S V : Type} [Inhabited V] (structType : String)
    (encFp encImg : String → S) (properties : List String) (records : List (Option (Mol V)))
    (h : structType = "fingerprints" ∨ structType = "2Dimg") :
    buildXY structType encFp encImg properties records =
      .ok ((records.filterMap
              (includedPair (chosenEnc structType encFp encImg) properties)).map Prod.fst,
           (records.filterMap
              (includedPair (chosenEnc structType encFp encImg) properties)).map Prod.snd) :=
  buildXY_eq_filterMap structType encFp encImg properties h records

/-- Witness for C1: a file with one complete record, one unparsable record
and one record lacking the requested property keeps exactly the complete
record, with the label row in properties order. -/
theorem C1_witness :
    buildXY "fingerprints" String.length (fun _ => 0) ["NR-AR", "SR-HSE"]
        [some ⟨[("SR-HSE", (7 : Int)), ("NR-AR", 1)], "CC"⟩, none,
         some ⟨[("NR-AR", 3)], "O"⟩] =
      .ok ([2], [[1, 7]]) :=
  (C1_filter_and_label_order "fingerprints" String.length (fun _ => 0) ["NR-AR", "SR-HSE"]
    [some ⟨[("SR-HSE", (7 : Int)), ("NR-AR", 1)], "CC"⟩, none, some ⟨[("NR-AR", 3)], "O"⟩]
    (Or.inl rfl)).trans (by decide)

/-- C2: whenever convert_sdf_to_npz saves arrays x and y, they have equal
length and zip back to a permutation of the filtered (structure, label)
pair list, so the multiset of saved pairs equals the multiset of filtered
pairs and no structure is re-paired with another record's labels (the
hypothesis on shuffle is that random.shuffle permutes its list). -/
theorem C2_saved_pairs_perm_filtered {S V : Type} [Inhabited V]
    (shuffle : List (S × List V) → List (S × List V)) (encFp encImg : String → S)
    (records : List (Option (Mol V))) (structType : String) (properties : List String)
    (npzFilePath : Option String) (sdfFilePath : String)
    (path : String) (X' : List S) (Y' : List (List V))
    (hs : ∀ l, (shuffle l).Perm l)
    (hst : structType = "fingerprints" ∨ structType = "2Dimg")
    (hrun : convert_sdf_to_npz shuffle encFp encImg records structType properties
      npzFilePath sdfFilePath = .ok (path, X', Y')) :
    X'.length = Y'.length ∧
      (X'.zip Y').Perm (records.filterMap
        (includedPair (chosenEnc structType encFp encImg) properties)) := by
  obtain ⟨X, Y, hb, hne, hpath, hX, hY⟩ := convert_ok_inversion shuffle encFp encImg records
    structType properties npzFilePath sdfFilePath path X' Y' hrun
  rw [buildXY_eq_filterMap structType encFp encImg properties hst records] at hb
  simp only [Except.ok.injEq, Prod.mk.injEq] at hb
  obtain ⟨hXe, hYe⟩ := hb
  have hXY : X.zip Y =
      records.filterMap (includedPair (chosenEnc structType encFp encImg) properties) := by
    rw [← hXe, ← hYe, zipMapFstSnd]
  rw [hXY] at hX hY
  constructor
  · rw [hX, hY]; simp
  · rw [hX, hY, zipMapFstSnd]
    exact hs _

/-- Witness for C2: a concrete run with the identity shuffle; the saved
arrays zip back to the single filtered pair. -/
theorem C2_witness :
    ([2] : List Nat).length = ([[1]] : List (List Int)).length ∧
      (([2] : List Nat).zip ([[1]] : List (List Int))).Perm
        ([some ⟨[("NR-AR", (1 : Int))], "CC"⟩, none].filterMap
          (includedPair (chosenEnc "fingerprints" String.length (fun _ => 0)) ["NR-AR"])) :=
  C2_saved_pairs_perm_filtered (fun l => l) String.length (fun _ => 0)
    [some ⟨[("NR-AR", (1 : Int))], "CC"⟩, none] "fingerprints" ["NR-AR"] none "a.sdf"
    "a_fingerprints.npz" [2] [[1]] (fun l => List.Perm.refl l) (Or.inl rfl) (by decide)

/-- C3: with struct_type "fingerprints" (the default), the structure the
loop stores for every included record is
list(RDKFingerprint(MolFromSmiles(MolToSmiles(mol)))) of that same record:
the loop result is exactly the filterMap in which each record passing the
filter contributes the composed fingerprint pipeline applied to its own
SMILES string, paired with its own label row, in file order. -/
theorem C3_structures_are_rdk_fingerprints {M FP V : Type} [Inhabited V]
    (molFromSmiles : String → M) (rdkFingerprint : M → FP) (fpBits : FP → List Nat)
    (encImg : String → List Nat) (properties : List String)
    (records : List (Option (Mol V))) :
    buildXY "fingerprints"
        (convert_smiles_into_fingerprints molFromSmiles rdkFingerprint fpBits)
        encImg properties records =
      .ok ((records.filterMap (includedPair
              (fun smile => fpBits (rdkFingerprint (molFromSmiles smile))) properties)).map
                Prod.fst,
           (records.filterMap (includedPair
              (fun smile => fpBits (rdkFingerprint (molFromSmiles smile))) properties)).map
                Prod.snd) := by
  have henc : chosenEnc "fingerprints"
      (convert_smiles_into_fingerprints molFromSmiles rdkFingerprint fpBits) encImg =
      fun smile => fpBits (rdkFingerprint (molFromSmiles smile)) := by
    funext smile
    simp [chosenEnc, convert_smiles_into_fingerprints]
  have h := buildXY_eq_filterMap "fingerprints"
    (convert_smiles_into_fingerprints molFromSmiles rdkFingerprint fpBits) encImg properties
    (Or.inl rfl) records
  rw [henc] at h
  exact h

/-- C4 counterexample: the claim as stated fails on an input file with no
included record. With struct_type "3Dimg" and an empty record list the
function never reaches the struct_type dispatch and fails later, at the
unzip of the empty pair list, with a ValueError instead of the claimed
NameError. -/
theorem C4_counterexample :
    convert_sdf_to_npz (fun l => l) String.length (fun _ => 0)
        ([] : List (Option (Mol Int))) "3Dimg" ["NR-AR"] none "data/tox21.sdf" =
      .error (.valueError unpackErrMsg) := by decide

/-- C4 (amended): for every struct_type other than "fingerprints" and
"2Dimg", as soon as some record parses and passes the property filter,
convert_sdf_to_npz raises the NameError stating that the structure type
does not exist; those two are the only supported encodings. -/
theorem C4_invalid_struct_type_nameError {S V : Type} [Inhabited V]
    (shuffle : List (S × List V) → List (S × List V)) (encFp encImg : String → S)
    (records : List (Option (Mol V))) (structType : String) (properties : List String)
    (npzFilePath : Option String) (sdfFilePath : String) (mol : Mol V)
    (h1 : structType ≠ "fingerprints") (h2 : structType ≠ "2Dimg")
    (hmem : some mol ∈ records) (hp : hasAllProps properties mol.props = true) :
    convert_sdf_to_npz shuffle encFp encImg records structType properties
      npzFilePath sdfFilePath = .error (.nameError nameErrMsg) := by
  rw [convert_sdf_to_npz,
    buildXY_error_of_included structType encFp encImg properties h1 h2 records mol hmem hp]

/-- Witness for C4: with struct_type "2D" and one complete record the run
raises the NameError. -/
theorem C4_witness :
    convert_sdf_to_npz (fun l => l) String.length (fun _ => 0)
        [some (⟨[("NR-AR", (1 : Int))], "CC"⟩ : Mol Int)] "2D" ["NR-AR"] none "a.sdf" =
      .error (.nameError nameErrMsg) :=
  C4_invalid_struct_type_nameError (fun l => l) String.length (fun _ => 0)
    [some ⟨[("NR-AR", (1 : Int))], "CC"⟩] "2D" ["NR-AR"] none "a.sdf"
    ⟨[("NR-AR", (1 : Int))], "CC"⟩ (by decide) (by decide) (by decide) (by decide)

/-- C5: whenever the loop finishes normally, X and Y have received exactly
one append each per included record, so the assert
len(X) == len(Y) == len(mols) of line 84 holds and never fails. -/
theorem C5_assert_never_fails {S V : Type} [Inhabited V] (structType : String)
    (encFp encImg : String → S) (properties : List String)
    (records : List (Option (Mol V))) (X : List S) (Y : List (List V))
    (h : buildXY structType encFp encImg properties records = .ok (X, Y)) :
    X.length = Y.length ∧ Y.length = (X.zip Y).length := by
  have h1 := buildXY_ok_lengths structType encFp encImg properties records X Y h
  exact ⟨h1, by simp [List.length_zip, h1]⟩

/-- Witness for C5: the assert condition at a concrete loop result. -/
theorem C5_witness :
    ([2, 1] : List Nat).length = ([[1], [0]] : List (List Int)).length ∧
      ([[1], [0]] : List (List Int)).length =
        (([2, 1] : List Nat).zip ([[1], [0]] : List (List Int))).length :=
  C5_assert_never_fails "fingerprints" String.length (fun _ => 0) ["p"]
    [some ⟨[("p", (1 : Int))], "CC"⟩, none, some ⟨[("p", 0)], "C"⟩] [2, 1] [[1], [0]]
    (by decide)

/-- C6: the loop visits the records in file order with no retry; a record
whose processing raises AttributeError (an unparsable record, modelled as
none) is only logged: deleting it from the file leaves the loop's entire
result unchanged, so it contributes nothing to X or Y and processing
continues with the next record. -/
theorem C6_attributeError_record_skipped {S V : Type} [Inhabited V] (structType : String)
    (encFp encImg : String → S) (properties : List String)
    (l1 l2 : List (Option (Mol V))) :
    buildXY structType encFp encImg properties (l1 ++ none :: l2) =
      buildXY structType encFp encImg properties (l1 ++ l2) :=
  buildXY_skip_none structType encFp encImg properties l1 l2

theorem reportAccuracies_ok (yPred yTest : List (List ℚ)) :
    ∀ is : List Nat, (∀ i ∈ is, i < tox21Classes.length) →
      reportAccuracies yPred yTest is =
        (is.map (fun i => (tox21Classes.getD i "",
          (((List.range yPred.length).filter
              (fun j => decide (rowGet yPred j i = rowGet yTest j i))).length : ℚ)
            / (yPred.length : ℚ))), none)
  | [], _ => rfl
  | i :: is, h => by
    have hi : i < tox21Classes.length := h i (List.mem_cons_self i is)
    have hrest := reportAccuracies_ok yPred yTest is
      (fun j hj => h j (List.mem_cons_of_mem i hj))
    have hsome : tox21Classes[i]? = some (tox21Classes.getD i "") := by
      rw [List.getElem?_eq_getElem hi, List.getD_eq_getElem?_getD,
        List.getElem?_eq_getElem hi]
      rfl
    simp only [reportAccuracies, hsome, hrest, List.map_cons]

/-- C7 counterexample: the claim as stated fails on same-shape matrices
with more than 3 columns. On a 1-by-4 pair each_metric prints accuracies
only for the three hard-coded class names and then raises IndexError at
classes[3], so the accuracy of the fourth output class is never
reported. -/
theorem C7_counterexample :
    ((each_metric_report (fun _ => [[1, 1, 1, 1]]) [] [[1, 1, 1, 1]]).1.map Prod.fst,
     (each_metric_report (fun _ => [[1, 1, 1, 1]]) [] [[1, 1, 1, 1]]).2) =
      (["NR-AR", "NR-ER-LBD", "SR-ATAD5"], some (.indexError (indexErrMsg 3))) := by decide

/-- C7 (amended): for prediction and test-label matrices of the same shape
(equal row count, every prediction row of width c, at least one row),
provided the matrices have at most 3 columns — the length of the
hard-coded classes array — the per-class accuracy loop of each_metric
reports, for each output class i, its class name together with the
fraction of test rows whose thresholded prediction (1.0 exactly when the
raw prediction is strictly greater than 0.5, else 0.0) equals the test
label in column i, and raises nothing. -/
theorem C7_each_metric_per_class_accuracy
    (predict : List (List ℚ) → List (List ℚ)) (inputData yTest : List (List ℚ)) (c : Nat)
    (hlen : (predict inputData).length = yTest.length)
    (hpos : 0 < (predict inputData).length)
    (hrows : ∀ row ∈ predict inputData, row.length = c)
    (hc : c ≤ tox21Classes.length) :
    each_metric_report predict inputData yTest =
      ((List.range c).map (fun i => (tox21Classes.getD i "",
        specPerClassAccuracy (predict inputData) yTest i)), none) := by
  unfold each_metric_report
  dsimp only
  set raw := predict inputData with hraw
  have htot : (maskPred raw).length = raw.length := by simp [maskPred]
  have hhead : ((maskPred raw).headD []).length = c := by
    cases hr : raw with
    | nil => rw [hr] at hpos; simp at hpos
    | cons r0 t =>
      have : r0 ∈ raw := by rw [hr]; exact List.mem_cons_self r0 t
      simp only [maskPred, List.map_cons, List.headD_cons, List.length_map]
      exact hrows r0 this
  rw [hhead]
  rw [reportAccuracies_ok (maskPred raw) yTest (List.range c)
    (fun i hi => lt_of_lt_of_le (List.mem_range.mp hi) hc)]
  congr 1
  apply List.map_congr_left
  intro i _
  congr 1
  unfold specPerClassAccuracy
  rw [htot]
  have hpredEq : (fun j => decide (rowGet (maskPred raw) j i = rowGet yTest j i)) =
      fun j => decide (maskVal ((raw.getD j []).getD i 0) = (yTest.getD j []).getD i 0) := by
    funext j
    rw [rowGet_maskPred]
    rfl
  rw [hpredEq]
  have hcount := countRangeEqCountZip
    (fun ra rb => decide (maskVal (ra.getD i 0) = rb.getD i 0)) [] [] raw yTest hlen
  rw [hcount, hlen]
  rfl

/-- Witness for C7 on a concrete 2-by-2 prediction matrix. -/
theorem C7_witness :
    each_metric_report (fun _ => [[9 / 10, 2 / 5], [1 / 5, 3 / 5]]) [] [[1, 0], [0, 1]] =
      ((List.range 2).map (fun i => (tox21Classes.getD i "",
        specPerClassAccuracy [[9 / 10, 2 / 5], [1 / 5, 3 / 5]] [[1, 0], [0, 1]] i)), none) :=
  C7_each_metric_per_class_accuracy (fun _ => [[9 / 10, 2 / 5], [1 / 5, 3 / 5]]) []
    [[1, 0], [0, 1]] 2 (by decide) (by decide) (by decide) (by decide)

/-- C8: when the run saves its output, the path used is exactly the
npz_file_path argument when that is a non-empty string, and otherwise the
sdf_file_path with every occurrence of ".sdf" replaced by
"_<struct_type>.npz". -/
theorem C8_output_path {S V : Type} [Inhabited V]
    (shuffle : List (S × List V) → List (S × List V)) (encFp encImg : String → S)
    (records : List (Option (Mol V))) (structType : String) (properties : List String)
    (npzFilePath : Option String) (sdfFilePath : String)
    (path : String) (X' : List S) (Y' : List (List V))
    (hrun : convert_sdf_to_npz shuffle encFp encImg records structType properties
      npzFilePath sdfFilePath = .ok (path, X', Y')) :
    (npzFilePath = none →
      path = pyReplace sdfFilePath ".sdf" ("_" ++ structType ++ ".npz")) ∧
    (∀ p, npzFilePath = some p → p ≠ "" → path = p) := by
  obtain ⟨X, Y, hb, hne, hpath, hX, hY⟩ := convert_ok_inversion shuffle encFp encImg records
    structType properties npzFilePath sdfFilePath path X' Y' hrun
  constructor
  · intro hn
    rw [hpath, hn]
    rfl
  · intro p hpn hne2
    rw [hpath, hpn]
    simp [npzPath, hne2]

/-- Witness for C8: with npz_file_path None, a path containing ".sdf"
twice has both occurrences replaced. -/
theorem C8_witness :
    "d_fingerprints.npz_fingerprints.npz" =
      pyReplace "d.sdf.sdf" ".sdf" ("_" ++ "fingerprints" ++ ".npz") :=
  (C8_output_path (fun l => l) String.length (fun _ => 0)
    [some (⟨[("NR-AR", (1 : Int))], "CC"⟩ : Mol Int)] "fingerprints" ["NR-AR"] none
    "d.sdf.sdf" "d_fingerprints.npz_fingerprints.npz" [2] [[1]] (by decide)).1 rfl

/-- C9: if no record passes the property filter, the pair list is empty and
convert_sdf_to_npz raises an exception at `X, Y = zip(*mols)` instead of
saving an npz file (the run result is the ValueError, not a save). -/
theorem C9_empty_filtered_raises {S V : Type} [Inhabited V]
    (shuffle : List (S × List V) → List (S × List V)) (encFp encImg : String → S)
    (records : List (Option (Mol V))) (structType : String) (properties : List String)
    (npzFilePath : Option String) (sdfFilePath : String)
    (hs : ∀ l, (shuffle l).Perm l)
    (hb : buildXY structType encFp encImg properties records = .ok ([], [])) :
    convert_sdf_to_npz shuffle encFp encImg records structType properties
      npzFilePath sdfFilePath = .error (.valueError unpackErrMsg) := by
  rw [convert_sdf_to_npz, hb]
  dsimp only
  rw [if_pos (by simp)]
  rw [List.zip_nil_left, List.Perm.eq_nil (hs [])]
  rfl

/-- Witness for C9: a file whose only record lacks the requested property
produces the ValueError. -/
theorem C9_witness :
    convert_sdf_to_npz (fun l => l) String.length (fun _ => 0)
        [some (⟨[("other", (1 : Int))], "CC"⟩ : Mol Int)] "fingerprints" ["NR-AR"] none
        "a.sdf" = .error (.valueError unpackErrMsg) :=
  C9_empty_filtered_raises (fun l => l) String.length (fun _ => 0)
    [some ⟨[("other", (1 : Int))], "CC"⟩] "fingerprints" ["NR-AR"] none "a.sdf"
    (fun l => List.Perm.refl l) (by decide)

/-- C10: a run of the data_preprocessing script is a pure function of its
inputs whose random state is the constant seed 1 set at module import, so
two runs on the same input produce identical saved arrays, element for
element. -/
theorem C10_script_deterministic {S V R : Type} [Inhabited V] (seedFn : Nat → R)
    (shuffleR : R → List (S × List V) → List (S × List V) × R)
    (encFp encImg : String → S) (calls : List (CallArgs V)) :
    data_preprocessing_script seedFn shuffleR encFp encImg calls =
      data_preprocessing_script seedFn shuffleR encFp encImg calls ∧
    data_preprocessing_script seedFn shuffleR encFp encImg calls =
      scriptRunAux shuffleR encFp encImg (seedFn 1) calls :=
  ⟨rfl, rfl⟩
